import Mathlib

/-!
Verification development for the montashop grocery bot (src/index.js).
The stored list, the per-chat conversation state, the command and callback
handlers and the safe-send utility are embedded as executable Lean
definitions, and the documented properties are settled as theorems below.
-/

/-- Grocery list item, as stored in shopping-list.json and manipulated by the
handlers (src/index.js lines 229 to 234): a name, a free-form quantity
string, a category key, and a checked flag. -/
structure Item where
  name : String
  quantity : String
  category : String
  checked : Bool
  deriving DecidableEq

/-- Subset of JSON values that the shopping-list file can hold: strings,
booleans, arrays and objects, mirroring what JSON.parse returns for the
documents the program reads and writes. -/
inductive Json where
  | str : String → Json
  | bool : Bool → Json
  | arr : List Json → Json
  | obj : List (String × Json) → Json

/-- Serialization of one item, mirroring the object literal pushed at
src/index.js lines 229 to 234 and written by JSON.stringify in
saveShoppingList (line 53): the four fields in insertion order. -/
def Item.toJson (it : Item) : Json :=
  Json.obj [("name", Json.str it.name), ("quantity", Json.str it.quantity),
            ("category", Json.str it.category), ("checked", Json.bool it.checked)]

/-- Reading one item back out of a parsed JSON value. JSON.parse performs no
validation; this models the structural field accesses item.name,
item.quantity, item.category and item.checked that the handlers perform on
parsed items (src/index.js lines 162, 288, 294, 310, 316, 334). -/
def Json.toItem? : Json → Option Item
  | Json.obj fields =>
    match fields.lookup "name", fields.lookup "quantity",
          fields.lookup "category", fields.lookup "checked" with
    | some (Json.str n), some (Json.str q), some (Json.str c), some (Json.bool ck) =>
      some { name := n, quantity := q, category := c, checked := ck }
    | _, _, _, _ => none
  | _ => none

/-- Reading a whole stored items array back into items. -/
def decodeItems : List Json → Option (List Item)
  | [] => some []
  | j :: js =>
    match Json.toItem? j, decodeItems js with
    | some it, some its => some (it :: its)
    | _, _ => none

/-- Reading the stored document: the top level object carries the items
array, the shape written by saveShoppingList. -/
def parseShoppingList (j : Json) : Option (List Item) :=
  match j with
  | Json.obj fields =>
    match fields.lookup "items" with
    | some (Json.arr js) => decodeItems js
    | _ => none
  | _ => none

/-- Model of saveShoppingList (src/index.js lines 51 to 57): the JSON
document that JSON.stringify writes for the given items. A write failure is
logged and swallowed by the source; it does not change the document
produced. -/
def saveShoppingList (items : List Item) : Json :=
  Json.obj [("items", Json.arr (items.map Item.toJson))]

/-- Model of loadShoppingList (src/index.js lines 40 to 48). The file
contents are none when the file is missing or not parsable, in which case
the catch branch logs the error and returns an object with an empty items
array; otherwise the file holds the parsed JSON value. A parsed document
without the stored shape is not given meaning by the program (its handlers
would fail on it), and no reachable state produces one; the model reads it
as empty. -/
def loadShoppingList (file : Option Json) : List Item :=
  match file with
  | none => []
  | some j => (parseShoppingList j).getD []

/-- Check whether the first list is a leading segment of the second,
character by character. -/
def charsStartWith : List Char → List Char → Bool
  | [], _ => true
  | _ :: _, [] => false
  | p :: ps, c :: cs => p == c && charsStartWith ps cs

/-- Check whether pat occurs as a contiguous run anywhere in the list. -/
def charsContain (pat : List Char) : List Char → Bool
  | [] => charsStartWith pat []
  | c :: cs => charsStartWith pat (c :: cs) || charsContain pat cs

/-- Model of the JavaScript test text.startsWith(tag). -/
def strStartsWith (text tag : String) : Bool :=
  charsStartWith tag.data text.data

/-- Model of the unanchored regular expression tests used for command
dispatch: bot.onText with an unanchored pattern fires whenever the command
text occurs anywhere in the message. -/
def strContains (text tag : String) : Bool :=
  charsContain tag.data text.data

/-- Model of data.replace(tag, empty) for the action tokens, which always
begin with tag: the first occurrence is the leading one, so the replacement
drops the tag prefix. -/
def dropTag (tag text : String) : String :=
  String.mk (text.data.drop tag.data.length)

/-- Whitespace characters skipped by parseInt. -/
def isJsSpace (c : Char) : Bool :=
  c == ' ' || c == '\t' || c == '\n' || c == '\r'

/-- Value of a run of decimal digits. -/
def digitsVal (ds : List Char) : Nat :=
  ds.foldl (fun acc c => acc * 10 + (c.toNat - 48)) 0

/-- Longest run of leading decimal digits. -/
def leadingDigits : List Char → List Char
  | [] => []
  | c :: cs => if c.isDigit then c :: leadingDigits cs else []

/-- Model of parseInt(tok) at the default radix for the decimal tokens this
program produces and receives: skip leading whitespace, read an optional
sign, then the longest run of leading decimal digits. The result none
models NaN, produced when no digit is found. -/
def parseIntJs (tok : String) : Option Int :=
  let cs := tok.data.dropWhile isJsSpace
  let signAndRest : Int × List Char :=
    match cs with
    | '+' :: r => (1, r)
    | '-' :: r => (-1, r)
    | r => (1, r)
  match leadingDigits signAndRest.2 with
  | [] => none
  | ds => some (signAndRest.1 * (digitsVal ds : Int))

/-- Dialogue phase of the add-item flow: the state field of the per-chat
record held in addItemStates (src/index.js line 178). -/
inductive Phase where
  | awaiting_name
  | awaiting_quantity
  deriving DecidableEq, BEq

/-- Per-chat conversation record stored in addItemStates: the phase plus
the category and name fields, absent until set. -/
structure AddState where
  state : Phase
  category : Option String
  name : Option String
  deriving DecidableEq

/-- State of one chat as the program sees it: the addItemStates entry for
the chat (none when absent) and the contents of shopping-list.json. -/
structure ChatState where
  addState : Option AddState
  file : Option Json

/-- JavaScript truthiness of the optional category string: an absent value
and the empty string are falsy, every other string is truthy. -/
def strTruthy : Option String → Bool
  | none => false
  | some c => !(c == "")

/-- Model of the add command handler (src/index.js lines 181 to 196):
record an awaiting-name state with no category and show the category
menu. -/
def handleAddCommand (s : ChatState) : ChatState :=
  { s with addState := some { state := Phase.awaiting_name, category := none, name := none } }

/-- Model of the clear command handler (src/index.js lines 340 to 344):
save an empty list. -/
def handleClearCommand (s : ChatState) : ChatState :=
  { s with file := some (saveShoppingList []) }

/-- Command dispatch over the state-changing commands, in registration
order (add at line 181, clear at line 340). The remaining commands (start,
help, categories, list, remove) only render and send messages; they change
neither the conversation state nor the stored file. Every onText pattern
is unanchored, so a command fires when its text occurs anywhere in the
message. -/
def commandStep (text : String) (s : ChatState) : ChatState :=
  let s1 := if strContains text "/add" then handleAddCommand s else s
  if strContains text "/clear" then handleClearCommand s1 else s1

/-- Model of the message handler (src/index.js lines 215 to 243): return
unchanged when the chat has no conversation state or the text begins with
the command prefix; in awaiting-name with a truthy category record the
name and advance; in awaiting-quantity append the pending item and delete
the state. The quantity branch is only reachable after the name branch
stored a name, and the name branch requires a truthy category, so the
defaults supplied to getD are never used on a reachable state. -/
def handleMessage (text : String) (s : ChatState) : ChatState :=
  match s.addState with
  | none => s
  | some st =>
    if strStartsWith text "/" then s
    else if st.state == Phase.awaiting_name && strTruthy st.category then
      { s with addState := some { state := Phase.awaiting_quantity,
                                  category := st.category, name := some text } }
    else if st.state == Phase.awaiting_quantity then
      let items := loadShoppingList s.file
      let items2 := items ++ [{ name := st.name.getD "", quantity := text,
                                category := st.category.getD "", checked := false }]
      { s with addState := none, file := some (saveShoppingList items2) }
    else s

/-- Processing of one inbound text message: the message listener runs
first, then the matching command listeners, since the transport emits the
message event before the text events that drive onText. Handlers of a
single update run without interleaving in this model; interleaving across
updates is declared out of scope by the design (no serializability
guarantee). -/
def processTextMessage (text : String) (s : ChatState) : ChatState :=
  commandStep text (handleMessage text s)

/-- Observable outcome of a callback-query handler invocation. -/
inductive CallbackOutcome where
  | categoryPrompt
  | staleAlert
  | removedMsg : Item → CallbackOutcome
  | toggledMsg : String → Bool → CallbackOutcome
  | typeError
  | noAction
  deriving DecidableEq

/-- Bounds validation at src/index.js lines 280 and 302: index below zero
or at least the length. When the parsed index is NaN both comparisons are
false, so validation passes. -/
def jsIndexInvalid (idx : Option Int) (len : Nat) : Bool :=
  match idx with
  | none => false
  | some i => decide (i < 0) || decide ((len : Int) ≤ i)

/-- JavaScript array read items[index]: undefined for NaN or a negative
index, the element for an in-range nonnegative index. -/
def jsIndex (items : List Item) (idx : Option Int) : Option Item :=
  match idx with
  | none => none
  | some i => if 0 ≤ i then items[i.toNat]? else none

/-- Start position used by splice: NaN converts to 0, a negative position
counts from the end clamped at 0, and a large position clamps to the
length. -/
def spliceIndex (idx : Option Int) (len : Nat) : Nat :=
  match idx with
  | none => 0
  | some i => if i < 0 then (i + (len : Int)).toNat else min i.toNat len

/-- Model of items.splice(k, 1): remove the element at position k when
there is one. -/
def jsSpliceOne (items : List Item) (k : Nat) : List Item :=
  items.take k ++ items.drop (k + 1)

/-- Model of the remove branch of the callback handler (src/index.js lines
275 to 296). The typeError outcome marks the TypeError thrown while the
confirmation message is built when the removed item is undefined (NaN
index); the splice and the save have already happened at that point. -/
def removeBranch (idx : Option Int) (s : ChatState) : ChatState × CallbackOutcome :=
  let items := loadShoppingList s.file
  if jsIndexInvalid idx items.length then (s, CallbackOutcome.staleAlert)
  else
    let removedItem := jsIndex items idx
    let items2 := jsSpliceOne items (spliceIndex idx items.length)
    let s2 : ChatState := { s with file := some (saveShoppingList items2) }
    match removedItem with
    | some it => (s2, CallbackOutcome.removedMsg it)
    | none => (s2, CallbackOutcome.typeError)

/-- Model of the toggle branch of the callback handler (src/index.js lines
297 to 336). With a NaN index the checked field access on the undefined
value items[index] throws before anything is written. -/
def toggleBranch (idx : Option Int) (s : ChatState) : ChatState × CallbackOutcome :=
  let items := loadShoppingList s.file
  if jsIndexInvalid idx items.length then (s, CallbackOutcome.staleAlert)
  else
    match idx with
    | none => (s, CallbackOutcome.typeError)
    | some i =>
      match items[i.toNat]? with
      | none => (s, CallbackOutcome.typeError)
      | some it =>
        let items2 := items.set i.toNat { it with checked := !it.checked }
        ({ s with file := some (saveShoppingList items2) },
         CallbackOutcome.toggledMsg it.name (!it.checked))

/-- Model of the two callback-query listeners (src/index.js lines 199 to
212 and 270 to 337), folded into one dispatch: the branches test disjoint
data prefixes, so running them in sequence equals this conditional. -/
def handleCallback (data : String) (s : ChatState) : ChatState × CallbackOutcome :=
  if strStartsWith data "category_" then
    ({ s with addState := some { state := Phase.awaiting_name,
                                 category := some (dropTag "category_" data),
                                 name := none } },
     CallbackOutcome.categoryPrompt)
  else if strStartsWith data "remove_" then
    removeBranch (parseIntJs (dropTag "remove_" data)) s
  else if strStartsWith data "toggle_" then
    toggleBranch (parseIntJs (dropTag "toggle_" data)) s
  else (s, CallbackOutcome.noAction)

/-- Transport error kinds distinguished by safeSendMessage: the 400
cannot-parse-entities rejection, and everything else. -/
inductive SendError where
  | parseEntities
  | other
  deriving DecidableEq

/-- Result of a safeSendMessage call as seen by its caller. -/
inductive SafeSendOutcome where
  | sent : String → SafeSendOutcome
  | silentFailure
  | propagated : SendError → SafeSendOutcome
  deriving DecidableEq

/-- Outcome of transport send attempt number n within one safeSendMessage
call: none is success, some e a rejection. Attempts beyond the modeled
list succeed. -/
def attemptResult (rs : List (Option SendError)) (n : Nat) : Option SendError :=
  (rs.get? n).getD none

/-- Model of the global regex replace that strips the markdown characters
asterisk, underscore, backtick and opening bracket (src/index.js line
71). -/
def stripMarkdown (message : String) : String :=
  String.mk (message.data.filter
    (fun c => !(c == '*' || c == '_' || c == Char.ofNat 96 || c == '[')))

/-- Model of safeSendMessage (src/index.js lines 60 to 87). On a
parse-entities rejection the message is stripped and resent, and a failure
of that resend falls back to a fixed display apology; that last-resort
send at line 76 is not wrapped in a try of its own, so its rejection
escapes the function. On any other rejection a fixed generic apology is
sent, and a failure of that send is logged and swallowed. -/
def safeSendMessage (message : String) (rs : List (Option SendError)) : SafeSendOutcome :=
  match attemptResult rs 0 with
  | none => SafeSendOutcome.sent message
  | some SendError.parseEntities =>
    (match attemptResult rs 1 with
     | none => SafeSendOutcome.sent (stripMarkdown message)
     | some _ =>
       (match attemptResult rs 2 with
        | none => SafeSendOutcome.sent "Sorry, there was an error displaying this message."
        | some e2 => SafeSendOutcome.propagated e2))
  | some SendError.other =>
    (match attemptResult rs 1 with
     | none => SafeSendOutcome.sent "Sorry, there was an error processing your request."
     | some _ => SafeSendOutcome.silentFailure)

/-! Helper lemmas about list lookup and update, used by several claims. -/

theorem listGet?_some_lt {α : Type} (l : List α) (n : Nat) (a : α)
    (h : l[n]? = some a) : n < l.length := by
  induction l generalizing n with
  | nil => simp at h
  | cons b bs ih =>
    cases n with
    | zero => simp
    | succ m =>
      simp only [List.getElem?_cons_succ] at h
      have := ih m h
      simp only [List.length_cons]
      omega

theorem listLt_get?_some {α : Type} (l : List α) (n : Nat) (h : n < l.length) :
    ∃ a, l[n]? = some a := ⟨_, List.getElem?_eq_getElem h⟩

/-! Round-trip of the item store, shared by the claims that reload a saved
file. -/

theorem toItem?_toJson (it : Item) : Json.toItem? (Item.toJson it) = some it := rfl

theorem decodeItems_map (items : List Item) :
    decodeItems (items.map Item.toJson) = some items := by
  induction items with
  | nil => rfl
  | cons it its ih => simp [List.map, decodeItems, toItem?_toJson, ih]

theorem load_save (items : List Item) :
    loadShoppingList (some (saveShoppingList items)) = items := by
  show (decodeItems (items.map Item.toJson)).getD [] = items
  rw [decodeItems_map]
  rfl

/-- Behaviour of the valid-index toggle, shared by the toggle claims. -/
theorem toggleBranch_valid (s : ChatState) (i : Int) (it : Item) (h0 : 0 ≤ i)
    (hget : (loadShoppingList s.file)[i.toNat]? = some it) :
    toggleBranch (some i) s
      = ({ s with file := some (saveShoppingList
            ((loadShoppingList s.file).set i.toNat { it with checked := !it.checked })) },
         CallbackOutcome.toggledMsg it.name (!it.checked)) := by
  have hlt := listGet?_some_lt _ _ _ hget
  have hinv : jsIndexInvalid (some i) (loadShoppingList s.file).length = false := by
    simp only [jsIndexInvalid, Bool.or_eq_false_iff, decide_eq_false_iff_not]
    omega
  simp [toggleBranch, hinv, hget]

/-! Concrete states used by the witnesses below. -/

def itemA : Item :=
  { name := "Milk", quantity := "1", category := "other", checked := false }

def itemB : Item :=
  { name := "Eggs", quantity := "12", category := "proteins", checked := true }

def twoItemState : ChatState :=
  { addState := none, file := some (saveShoppingList [itemA, itemB]) }

def pendingQuantityState : ChatState :=
  { addState := some { state := Phase.awaiting_quantity, category := some "fruits",
                       name := some "Apples" },
    file := some (saveShoppingList [itemA]) }

def danglingNameState : ChatState :=
  { addState := some { state := Phase.awaiting_name, category := none, name := none },
    file := none }

/-- C4: saving any sequence of items with the item store and loading it
back yields an equal sequence, with the same length, order and per-item
name, quantity, category and checked fields, including the empty
sequence. -/
theorem save_load_roundtrip (items : List Item) :
    loadShoppingList (some (saveShoppingList items)) = items :=
  load_save items

/-- C8: when the underlying read fails because the file is missing or its
contents are unparsable, load returns the empty sequence instead of
propagating the error; recovery is local to the load. -/
theorem load_failure_yields_empty : loadShoppingList none = [] := rfl

/-- C1: from a chat with no conversation state, the add command, the
category selection fruits, the free text Apples and the free text 6 append
exactly one new item with name Apples, quantity 6, category fruits and
checked false to the end of the stored sequence, and the conversation
state entry is deleted again. -/
theorem add_flow_scenario (file : Option Json) :
    let s1 := processTextMessage "/add" { addState := none, file := file }
    let s2 := (handleCallback "category_fruits" s1).1
    let s3 := processTextMessage "Apples" s2
    let s4 := processTextMessage "6" s3
    loadShoppingList s4.file
        = loadShoppingList file
            ++ [{ name := "Apples", quantity := "6", category := "fruits", checked := false }] ∧
      s4.addState = none := by
  intro s1 s2 s3 s4
  exact ⟨load_save _, rfl⟩

/-- C6: a message whose text begins with the command prefix character is
never consumed as dialogue input in any conversation state: the message
handler leaves the whole chat state unchanged, so no item is appended, the
stored list is untouched and the pending entry stays in place, and the
processing of the message amounts to command handling alone. -/
theorem command_prefix_escape (s : ChatState) (text : String)
    (h : strStartsWith text "/" = true) :
    handleMessage text s = s ∧ processTextMessage text s = commandStep text s := by
  obtain ⟨a, f⟩ := s
  cases a with
  | none => exact ⟨rfl, rfl⟩
  | some st =>
    have hm : handleMessage text ⟨some st, f⟩ = ⟨some st, f⟩ := by
      simp [handleMessage, h]
    refine ⟨hm, ?_⟩
    unfold processTextMessage
    rw [hm]

/-- Witness for command_prefix_escape: a help command sent while a quantity
is awaited. -/
theorem command_prefix_escape_witness :
    handleMessage "/help" pendingQuantityState = pendingQuantityState ∧
    processTextMessage "/help" pendingQuantityState = commandStep "/help" pendingQuantityState :=
  command_prefix_escape pendingQuantityState "/help" (by decide)

/-- C7: the add command creates an awaiting-name conversation state that
carries no category, and a noncommand free-text message arriving in
awaiting-name without a category is ignored: the conversation state entry,
its phase and the stored list are all unchanged. -/
theorem awaiting_name_without_category_ignored (s : ChatState) (text : String) (st : AddState)
    (hstate : s.addState = some st) (hphase : st.state = Phase.awaiting_name)
    (hcat : st.category = none) (hslash : strStartsWith text "/" = false) :
    (handleAddCommand s).addState
        = some { state := Phase.awaiting_name, category := none, name := none } ∧
    handleMessage text s = s := by
  refine ⟨rfl, ?_⟩
  obtain ⟨a, f⟩ := s
  simp only at hstate
  subst hstate
  simp [handleMessage, hslash, hphase, hcat, strTruthy]
  decide

/-- Witness for awaiting_name_without_category_ignored: a fresh add-flow
state receiving the text Apples before any category was chosen. -/
theorem awaiting_name_without_category_ignored_witness :
    (handleAddCommand danglingNameState).addState
        = some { state := Phase.awaiting_name, category := none, name := none } ∧
    handleMessage "Apples" danglingNameState = danglingNameState :=
  awaiting_name_without_category_ignored danglingNameState "Apples"
    { state := Phase.awaiting_name, category := none, name := none } rfl rfl rfl (by decide)

/-- C2: removing at an integer position outside the valid range leaves the
stored sequence and the whole chat state unchanged and signals the stale
reference alert; removing at a valid position emits the item that was at
that position for the confirmation message, the stored sequence becomes
the previous sequence with exactly that element cut out so the remaining
items keep their relative order, and the length decreases by exactly
one. -/
theorem removeAt_bounds (s : ChatState) (i : Int) :
    ((i < 0 ∨ ((loadShoppingList s.file).length : Int) ≤ i) →
      removeBranch (some i) s = (s, CallbackOutcome.staleAlert)) ∧
    (∀ it : Item, 0 ≤ i → (loadShoppingList s.file)[i.toNat]? = some it →
      (removeBranch (some i) s).2 = CallbackOutcome.removedMsg it ∧
      loadShoppingList (removeBranch (some i) s).1.file
        = (loadShoppingList s.file).take i.toNat
            ++ (loadShoppingList s.file).drop (i.toNat + 1) ∧
      (loadShoppingList (removeBranch (some i) s).1.file).length
        = (loadShoppingList s.file).length - 1) := by
  constructor
  · intro h
    have hinv : jsIndexInvalid (some i) (loadShoppingList s.file).length = true := by
      simp only [jsIndexInvalid, Bool.or_eq_true, decide_eq_true_eq]
      omega
    simp [removeBranch, hinv]
  · intro it h0 hget
    have hlt := listGet?_some_lt _ _ _ hget
    have hinv : jsIndexInvalid (some i) (loadShoppingList s.file).length = false := by
      simp only [jsIndexInvalid, Bool.or_eq_false_iff, decide_eq_false_iff_not]
      omega
    have hneg : ¬ i < 0 := by omega
    have hmain : removeBranch (some i) s
        = ({ s with file := some (saveShoppingList
              ((loadShoppingList s.file).take i.toNat
                ++ (loadShoppingList s.file).drop (i.toNat + 1))) },
           CallbackOutcome.removedMsg it) := by
      simp [removeBranch, hinv, jsIndex, h0, hget, jsSpliceOne, spliceIndex, hneg,
            Nat.min_eq_left (Nat.le_of_lt hlt)]
    have hload : loadShoppingList (removeBranch (some i) s).1.file
        = (loadShoppingList s.file).take i.toNat
            ++ (loadShoppingList s.file).drop (i.toNat + 1) := by
      rw [hmain]
      exact load_save _
    refine ⟨by rw [hmain], hload, ?_⟩
    rw [hload]
    simp only [List.length_append, List.length_take, List.length_drop,
               Nat.min_eq_left (Nat.le_of_lt hlt)]
    omega

/-- Witness for removeAt_bounds: position 5 is stale on a two item list,
position 0 removes the first item and keeps the second. -/
theorem removeAt_bounds_witness :
    removeBranch (some 5) twoItemState = (twoItemState, CallbackOutcome.staleAlert) ∧
    (removeBranch (some 0) twoItemState).2 = CallbackOutcome.removedMsg itemA ∧
    loadShoppingList (removeBranch (some 0) twoItemState).1.file = [itemB] := by
  have h := (removeAt_bounds twoItemState 0).2 itemA (by decide) (by decide)
  refine ⟨(removeAt_bounds twoItemState 5).1 (Or.inr (by decide)), h.1, ?_⟩
  rw [h.2.1]
  decide

/-- C5: toggling the checked flag at a valid position twice returns the
item at that position to its original checked value. -/
theorem toggle_involutive (s : ChatState) (i : Int) (h0 : 0 ≤ i)
    (hlt : i.toNat < (loadShoppingList s.file).length) :
    ((loadShoppingList (toggleBranch (some i) (toggleBranch (some i) s).1).1.file)[i.toNat]?).map Item.checked
      = ((loadShoppingList s.file)[i.toNat]?).map Item.checked := by
  obtain ⟨it, hget⟩ := listLt_get?_some _ _ hlt
  have h1 := toggleBranch_valid s i it h0 hget
  have hload1 : loadShoppingList (toggleBranch (some i) s).1.file
      = (loadShoppingList s.file).set i.toNat { it with checked := !it.checked } := by
    rw [h1]
    exact load_save _
  have hget1 : (loadShoppingList (toggleBranch (some i) s).1.file)[i.toNat]?
      = some { it with checked := !it.checked } := by
    rw [hload1]
    exact List.getElem?_set_eq_of_lt _ hlt
  have h2 := toggleBranch_valid (toggleBranch (some i) s).1 i
      { it with checked := !it.checked } h0 hget1
  have hlt1 : i.toNat < (loadShoppingList (toggleBranch (some i) s).1.file).length := by
    rw [hload1, List.length_set]
    exact hlt
  have hload2 : loadShoppingList (toggleBranch (some i) (toggleBranch (some i) s).1).1.file
      = (loadShoppingList (toggleBranch (some i) s).1.file).set i.toNat
          { it with checked := !(!it.checked) } := by
    rw [h2]
    exact load_save _
  have hget2 : (loadShoppingList (toggleBranch (some i) (toggleBranch (some i) s).1).1.file)[i.toNat]?
      = some { it with checked := !(!it.checked) } := by
    rw [hload2]
    exact List.getElem?_set_eq_of_lt _ hlt1
  rw [hget2, hget]
  simp

/-- Witness for toggle_involutive: toggling the first of two items twice
leaves its checked value as before. -/
theorem toggle_involutive_witness :
    ((loadShoppingList (toggleBranch (some 0) (toggleBranch (some 0) twoItemState).1).1.file)[(0 : Int).toNat]?).map Item.checked
      = ((loadShoppingList twoItemState.file)[(0 : Int).toNat]?).map Item.checked :=
  toggle_involutive twoItemState 0 (by decide) (by decide)

/-- C10: toggling at a valid position modifies only the checked field of
the item at that position: the length of the sequence, every other
position and the name, quantity and category of the toggled item are
unchanged between the loaded and saved sequences, and the checked flag of
the toggled item is flipped. -/
theorem toggle_frame (s : ChatState) (i : Int) (h0 : 0 ≤ i)
    (hlt : i.toNat < (loadShoppingList s.file).length) :
    (loadShoppingList (toggleBranch (some i) s).1.file).length
        = (loadShoppingList s.file).length ∧
    (∀ j, j ≠ i.toNat →
      (loadShoppingList (toggleBranch (some i) s).1.file)[j]?
        = (loadShoppingList s.file)[j]?) ∧
    ((loadShoppingList (toggleBranch (some i) s).1.file)[i.toNat]?).map Item.name
      = ((loadShoppingList s.file)[i.toNat]?).map Item.name ∧
    ((loadShoppingList (toggleBranch (some i) s).1.file)[i.toNat]?).map Item.quantity
      = ((loadShoppingList s.file)[i.toNat]?).map Item.quantity ∧
    ((loadShoppingList (toggleBranch (some i) s).1.file)[i.toNat]?).map Item.category
      = ((loadShoppingList s.file)[i.toNat]?).map Item.category ∧
    ((loadShoppingList (toggleBranch (some i) s).1.file)[i.toNat]?).map Item.checked
      = ((loadShoppingList s.file)[i.toNat]?).map (fun it => !it.checked) := by
  obtain ⟨it, hget⟩ := listLt_get?_some _ _ hlt
  have h1 := toggleBranch_valid s i it h0 hget
  have hload1 : loadShoppingList (toggleBranch (some i) s).1.file
      = (loadShoppingList s.file).set i.toNat { it with checked := !it.checked } := by
    rw [h1]
    exact load_save _
  have hgetSelf : (loadShoppingList (toggleBranch (some i) s).1.file)[i.toNat]?
      = some { it with checked := !it.checked } := by
    rw [hload1]
    exact List.getElem?_set_eq_of_lt _ hlt
  refine ⟨?_, ?_, ?_, ?_, ?_, ?_⟩
  · rw [hload1, List.length_set]
  · intro j hj
    rw [hload1]
    exact List.getElem?_set_ne (Ne.symm hj)
  · rw [hgetSelf, hget]
    rfl
  · rw [hgetSelf, hget]
    rfl
  · rw [hgetSelf, hget]
    rfl
  · rw [hgetSelf, hget]
    rfl

/-- Witness for toggle_frame: toggling the second of two items keeps the
length and the first item unchanged. -/
theorem toggle_frame_witness :
    (loadShoppingList (toggleBranch (some 1) twoItemState).1.file).length
        = (loadShoppingList twoItemState.file).length ∧
    (loadShoppingList (toggleBranch (some 1) twoItemState).1.file)[0]?
        = (loadShoppingList twoItemState.file)[0]? := by
  have h := toggle_frame twoItemState 1 (by decide) (by decide)
  exact ⟨h.1, h.2.1 0 (by decide)⟩

/-- C3: an action token whose index part does not parse to a number yields
a NaN index, for which the bounds validation evaluates to false, so the
out-of-range alert is never signaled and the mutation path proceeds: on a
nonempty list the remove action deletes the item at position zero, saving
the shortened list before the confirmation access throws, while the
toggle action throws on the checked field access of an undefined element
and changes nothing. -/
theorem nan_index_bypass (tok : String) (s : ChatState)
    (hnan : parseIntJs tok = none)
    (_hne : loadShoppingList s.file ≠ []) :
    (handleCallback ("remove_" ++ tok) s).2 ≠ CallbackOutcome.staleAlert ∧
    loadShoppingList (handleCallback ("remove_" ++ tok) s).1.file
      = (loadShoppingList s.file).tail ∧
    handleCallback ("toggle_" ++ tok) s = (s, CallbackOutcome.typeError) := by
  have hr : handleCallback ("remove_" ++ tok) s = removeBranch (parseIntJs tok) s := rfl
  have ht : handleCallback ("toggle_" ++ tok) s = toggleBranch (parseIntJs tok) s := rfl
  rw [hr, ht, hnan]
  refine ⟨?_, ?_, rfl⟩
  · intro hcontra
    exact CallbackOutcome.noConfusion hcontra
  · show loadShoppingList (some (saveShoppingList
        ((loadShoppingList s.file).take 0 ++ (loadShoppingList s.file).drop 1)))
      = (loadShoppingList s.file).tail
    rw [load_save]
    simp [List.drop_one]

/-- Witness for nan_index_bypass: the token oops does not parse, remove
deletes the first of two items, toggle throws and changes nothing. -/
theorem nan_index_bypass_witness :
    loadShoppingList (handleCallback ("remove_" ++ "oops") twoItemState).1.file = [itemB] ∧
    handleCallback ("toggle_" ++ "oops") twoItemState
      = (twoItemState, CallbackOutcome.typeError) := by
  have h := nan_index_bypass "oops" twoItemState (by decide) (by decide)
  refine ⟨?_, h.2.2⟩
  rw [h.2.1]
  decide

/-- C9 counterexample: a transport that rejects the formatted message as
unparsable, rejects the stripped retry, and rejects the last-resort
apology makes safeSendMessage propagate the rejection to its caller, so
the claim that a final failure is only logged and never propagates is
false. -/
theorem safeSend_final_failure_propagates :
    safeSendMessage "*hello*"
        [some SendError.parseEntities, some SendError.parseEntities, some SendError.parseEntities]
      = SafeSendOutcome.propagated SendError.parseEntities := rfl

/-- C9 amended: when the transport rejects the formatted message as
unparsable, safeSendMessage strips the formatting and retries once, then
falls back to the fixed display apology; a failure of that last-resort
send propagates to the caller. Only on the path of a nonparse rejection
is the fallback the generic apology whose failure is merely logged and
swallowed. -/
theorem safeSend_error_cascade (message : String) (rs : List (Option SendError)) :
    (attemptResult rs 0 = some SendError.parseEntities →
      safeSendMessage message rs =
        (match attemptResult rs 1 with
         | none => SafeSendOutcome.sent (stripMarkdown message)
         | some _ =>
           (match attemptResult rs 2 with
            | none => SafeSendOutcome.sent "Sorry, there was an error displaying this message."
            | some e2 => SafeSendOutcome.propagated e2))) ∧
    (attemptResult rs 0 = some SendError.other →
      safeSendMessage message rs =
        (match attemptResult rs 1 with
         | none => SafeSendOutcome.sent "Sorry, there was an error processing your request."
         | some _ => SafeSendOutcome.silentFailure)) := by
  constructor
  · intro h
    unfold safeSendMessage
    rw [h]
  · intro h
    unfold safeSendMessage
    rw [h]

/-- Witness for safeSend_error_cascade: a parse rejection whose stripped
retry succeeds ends in the stripped message being sent, and a nonparse
rejection followed by a second rejection ends in the silent logged
failure. -/
theorem safeSend_error_cascade_witness :
    safeSendMessage "*hi*" [some SendError.parseEntities, none]
        = SafeSendOutcome.sent (stripMarkdown "*hi*") ∧
    safeSendMessage "*hello*" [some SendError.other, some SendError.other]
        = SafeSendOutcome.silentFailure :=
  ⟨(safeSend_error_cascade "*hi*" [some SendError.parseEntities, none]).1 rfl,
   (safeSend_error_cascade "*hello*" [some SendError.other, some SendError.other]).2 rfl⟩
